import Mathlib

/-!
Shallow embedding of the Mesh Ingestion and Cost-Estimation Engine of
src/app.py (TFB-Creations).  Python floats are modelled as exact rationals
(the rational denoted by each numeric literal in the source); the mesh
library collaborator (trimesh) is modelled by an explicit record of the
attribute functions the engine consumes.  Source line references are to
src/app.py.
-/

/-- Point or vector with three rational coordinates. -/
abbrev Vec3 := ℚ × ℚ × ℚ

/-- Triangle as three vertex indices, mirroring a face row. -/
abbrev Tri3 := ℕ × ℕ × ℕ

/-- Raw geometry data of a mesh: vertex list and face list, as built by the
3MF parser and consumed by the library constructor (app.py lines 134-138). -/
structure RawMesh where
  vertices : List Vec3
  faces : List Tri3
deriving DecidableEq, Repr

/-- Attribute interface of a loaded mesh object as read by calculer_prix:
signed volume, surface area, axis-aligned bounds and the watertight flag
(the attributes of a trimesh.Trimesh that app.py lines 175-185 consume). -/
structure TriMesh where
  volume : ℚ
  area : ℚ
  boundsLo : Vec3
  boundsHi : Vec3
  watertight : Bool
deriving DecidableEq, Repr

/-- Material price table, app.py line 24. -/
def PRIX_KG : List (String × ℚ) :=
  [("PLA", 25), ("PETG", 28), ("TPU", 35), ("ASA", 28)]

/-- Material density table, app.py line 25. -/
def DENSITE : List (String × ℚ) :=
  [("PLA", 124/100), ("PETG", 127/100), ("TPU", 120/100), ("ASA", 107/100)]

/-- Volumetric extrusion-rate table, app.py line 28. -/
def VITESSE_MM3_S : List (String × ℚ) :=
  [("PLA", 8), ("PETG", 13/2), ("TPU", 7/2), ("ASA", 6)]

/-- Infill fraction, app.py line 30. -/
def REMPLISSAGE : ℚ := 20/100

/-- Shell thickness, app.py line 31. -/
def EPAISSEUR_COQUE : ℚ := 12/100

/-- Machine hourly rate, app.py line 32. -/
def PRIX_HEURE_MACHINE : ℚ := 3/2

/-- Margin multiplier, app.py line 33. -/
def COEFFICIENT_MARGE : ℚ := 140/100

/-- Absolute price floor, app.py line 34. -/
def PRIX_MIN : ℚ := 3

/-- Print-bed limits, app.py line 37. -/
def PLATEAU_X : ℚ := 250
def PLATEAU_Y : ℚ := 250
def PLATEAU_Z : ℚ := 250

/-- Rounding to n decimal places, modelling the Python builtin round(x, n)
on the exact rational reading of the values involved. -/
def roundTo (n : ℕ) (x : ℚ) : ℚ := (round (x * 10 ^ n) : ℚ) / 10 ^ n

/-- DENSITE.get(materiau, 1.24), app.py line 170. -/
def densiteOf (materiau : String) : ℚ := (DENSITE.lookup materiau).getD (124/100)

/-- VITESSE_MM3_S.get(materiau, 8.0), app.py line 171. -/
def vitesseOf (materiau : String) : ℚ := (VITESSE_MM3_S.lookup materiau).getD 8

/-- PRIX_KG.get(materiau, 25.0), app.py line 172. -/
def prixKgOf (materiau : String) : ℚ := (PRIX_KG.lookup materiau).getD 25

/-- Scaled bounding-box extents (bounds[1] - bounds[0]) * echelle,
app.py line 176. -/
def dims_mm (m : TriMesh) (echelle : ℚ) : Vec3 :=
  ((m.boundsHi.1 - m.boundsLo.1) * echelle,
   (m.boundsHi.2.1 - m.boundsLo.2.1) * echelle,
   (m.boundsHi.2.2 - m.boundsLo.2.2) * echelle)

/-- Axis name, scaled extent and bed limit for the three axes, mirroring the
zip of app.py line 178. -/
def axesData (m : TriMesh) (echelle : ℚ) : List (String × ℚ × ℚ) :=
  [("X", (dims_mm m echelle).1, PLATEAU_X),
   ("Y", (dims_mm m echelle).2.1, PLATEAU_Y),
   ("Z", (dims_mm m echelle).2.2, PLATEAU_Z)]

/-- Bed-fit warnings, app.py lines 177-180.  Each warning is kept as the
structured triple (axis name, scaled extent, bed limit) that the formatted
French string of line 180 interpolates. -/
def warnings (m : TriMesh) (echelle : ℚ) : List (String × ℚ × ℚ) :=
  (axesData m echelle).filterMap (fun p => if p.2.1 > p.2.2 then some p else none)

/-- Scaled volume in cubic millimeters, abs(mesh.volume) * echelle ** 3,
app.py line 183. -/
def volume_mm3 (m : TriMesh) (echelle : ℚ) : ℚ := |m.volume| * echelle ^ 3

/-- Volume in cubic centimeters, app.py line 184. -/
def volume_cm3 (m : TriMesh) (echelle : ℚ) : ℚ := volume_mm3 m echelle / 1000

/-- Scaled surface in square centimeters, app.py line 185. -/
def surface_cm2 (m : TriMesh) (echelle : ℚ) : ℚ := m.area * echelle ^ 2 / 100

/-- Shell volume, app.py line 186. -/
def volume_coque (m : TriMesh) (echelle : ℚ) : ℚ :=
  surface_cm2 m echelle * EPAISSEUR_COQUE

/-- Printed material volume, app.py line 187. -/
def volume_imprime (m : TriMesh) (echelle : ℚ) : ℚ :=
  volume_cm3 m echelle * REMPLISSAGE + volume_coque m echelle

/-- Weight in grams, app.py line 190. -/
def poids_g (m : TriMesh) (materiau : String) (echelle : ℚ) : ℚ :=
  volume_imprime m echelle * densiteOf materiau

/-- Printed volume back in cubic millimeters, app.py line 193. -/
def volume_mat_mm3 (m : TriMesh) (echelle : ℚ) : ℚ := volume_imprime m echelle * 1000

/-- Print time in seconds, app.py line 194. -/
def temps_secondes (m : TriMesh) (materiau : String) (echelle : ℚ) : ℚ :=
  volume_mat_mm3 m echelle / vitesseOf materiau

/-- Print time in hours, app.py line 195. -/
def temps_heures (m : TriMesh) (materiau : String) (echelle : ℚ) : ℚ :=
  temps_secondes m materiau echelle / 3600

/-- Display time label, app.py line 196, kept as the (hours, minutes) pair
that the f-string interpolates; int truncation and mod-1 fractional part are
floor and subtraction on the nonnegative times the code produces. -/
def temps_label (m : TriMesh) (materiau : String) (echelle : ℚ) : ℤ × ℤ :=
  (⌊temps_heures m materiau echelle⌋,
   ⌊(temps_heures m materiau echelle - (⌊temps_heures m materiau echelle⌋ : ℚ)) * 60⌋)

/-- Bed footprint of the part, app.py line 199. -/
def surface_xy (m : TriMesh) (echelle : ℚ) : ℚ :=
  (dims_mm m echelle).1 * (dims_mm m echelle).2.1

/-- Bed area, app.py line 200. -/
def surface_max : ℚ := PLATEAU_X * PLATEAU_Y

/-- Bed-occupancy ratio, app.py line 201. -/
def ratio_plateau (m : TriMesh) (echelle : ℚ) : ℚ := surface_xy m echelle / surface_max

/-- Flat bed surcharge, app.py line 202. -/
def suppl_plateau (m : TriMesh) (echelle : ℚ) : ℚ :=
  if ratio_plateau m echelle > 60/100 then 50/100 else 0

/-- Material cost, app.py line 205. -/
def cout_matiere (m : TriMesh) (materiau : String) (echelle : ℚ) : ℚ :=
  poids_g m materiau echelle / 1000 * prixKgOf materiau

/-- Machine cost, app.py line 206. -/
def cout_machine (m : TriMesh) (materiau : String) (echelle : ℚ) : ℚ :=
  temps_heures m materiau echelle * PRIX_HEURE_MACHINE

/-- Raw price before the floor, app.py line 209. -/
def prix_brut (m : TriMesh) (materiau : String) (echelle : ℚ) : ℚ :=
  (cout_matiere m materiau echelle + cout_machine m materiau echelle
    + suppl_plateau m echelle) * COEFFICIENT_MARGE

/-- Final price, max(round(prix_brut, 2), PRIX_MIN), app.py line 210. -/
def prix_final (m : TriMesh) (materiau : String) (echelle : ℚ) : ℚ :=
  max (roundTo 2 (prix_brut m materiau echelle)) PRIX_MIN

/-- Cost breakdown returned by calculer_prix, app.py lines 212-227. -/
structure Breakdown where
  prix_final_eur : ℚ
  prix_filament_eur : ℚ
  poids_g : ℚ
  volume_cm3 : ℚ
  volume_imprime_cm3 : ℚ
  temps_impression : ℤ × ℤ
  surface_plateau_pct : ℚ
  materiau : String
  dimensions_mm : Vec3
  warnings : List (String × ℚ × ℚ)
deriving DecidableEq, Repr

/-- Scalar triple product of three points, six times the signed volume of the
tetrahedron they form with the origin. -/
def tripleProduct (a b c : Vec3) : ℚ :=
  a.1 * (b.2.1 * c.2.2 - b.2.2 * c.2.1)
    - a.2.1 * (b.1 * c.2.2 - b.2.2 * c.1)
    + a.2.2 * (b.1 * c.2.1 - b.2.1 * c.1)

/-- Vertex fetched by index, out-of-range indices reading as the origin. -/
def vtx (vs : List Vec3) (i : ℕ) : Vec3 := vs.getD i (0, 0, 0)

/-- Modelled from the spec: the signed volume attribute of the mesh library
collaborator (trimesh), absent from src, described in section 4.4 as the
divergence-theorem sum over triangles of one sixth of the scalar triple
product of the vertices of each triangle. -/
def signedVolume (vs : List Vec3) (fs : List Tri3) : ℚ :=
  (fs.map (fun t => tripleProduct (vtx vs t.1) (vtx vs t.2.1) (vtx vs t.2.2))).sum / 6

/-- Componentwise difference of two points. -/
def vsub (a b : Vec3) : Vec3 := (a.1 - b.1, a.2.1 - b.2.1, a.2.2 - b.2.2)

/-- Squared norm of the cross product of two edge vectors. -/
def crossSq (u v : Vec3) : ℚ :=
  (u.2.1 * v.2.2 - u.2.2 * v.2.1) ^ 2
    + (u.2.2 * v.1 - u.1 * v.2.2) ^ 2
    + (u.1 * v.2.1 - u.2.1 * v.1) ^ 2

/-- Modelled from the spec: the surface-area attribute of the mesh library
collaborator (trimesh), absent from src, described in section 4.4 as the sum
of triangle areas, each half the cross-product magnitude of two edge
vectors.  The magnitude needs a real square root, so this one definition
lives in the reals. -/
noncomputable def meshArea (vs : List Vec3) (fs : List Tri3) : ℝ :=
  (fs.map (fun t =>
    Real.sqrt ((crossSq (vsub (vtx vs t.2.1) (vtx vs t.1))
      (vsub (vtx vs t.2.2) (vtx vs t.1)) : ℚ)) / 2)).sum

/-- Pricing function, app.py lines 169-227. -/
def calculer_prix (m : TriMesh) (materiau : String) (echelle : ℚ) : Breakdown :=
  { prix_final_eur := prix_final m materiau echelle
    prix_filament_eur := roundTo 2 (cout_matiere m materiau echelle)
    poids_g := roundTo 1 (poids_g m materiau echelle)
    volume_cm3 := roundTo 2 (volume_cm3 m echelle)
    volume_imprime_cm3 := roundTo 2 (volume_imprime m echelle)
    temps_impression := temps_label m materiau echelle
    surface_plateau_pct := roundTo 1 (ratio_plateau m echelle * 100)
    materiau := materiau
    dimensions_mm :=
      (roundTo 1 (dims_mm m echelle).1,
       roundTo 1 (dims_mm m echelle).2.1,
       roundTo 1 (dims_mm m echelle).2.2)
    warnings := warnings m echelle }

/-- Content of one XML mesh element of a 3MF model part: its vertex list and
triangle list when both child elements are present, none when either is
missing (the continue of app.py line 113). -/
abbrev MeshEl := Option (List Vec3 × List Tri3)

/-- Triangle with every index shifted by an offset. -/
def offTri (n : ℕ) (t : Tri3) : Tri3 := (t.1 + n, t.2.1 + n, t.2.2 + n)

/-- Loop body of the 3MF accumulation, app.py lines 109-129: the state is
(all_vertices, all_faces, vertex_offset); a mesh element missing vertices or
triangles is skipped, otherwise its vertices are appended, its triangles are
appended with indices shifted by the current offset, and the offset grows by
the vertex count of the element. -/
def step3mf (acc : List Vec3 × List Tri3 × ℕ) (el : MeshEl) : List Vec3 × List Tri3 × ℕ :=
  match el with
  | none => acc
  | some (verts, tris) =>
      (acc.1 ++ verts, acc.2.1 ++ tris.map (offTri acc.2.2), acc.2.2 + verts.length)

/-- Accumulation over every model part of a 3MF archive, app.py
lines 107-129. -/
def accum3mf (parts : List (List MeshEl)) : List Vec3 × List Tri3 × ℕ :=
  parts.foldl (fun acc part => part.foldl step3mf acc) ([], [], 0)

/-- Errors raised by the loading stage of the engine. -/
inductive LoadErr where
  | invalidArchive
  | noModelPart
  | noGeometry
  | unrecognized
deriving DecidableEq, Repr

/-- Manual 3MF parser, app.py lines 87-138, over the list of parsed model
parts of the archive (the ZIP and XML plumbing abstracted): fails with
noModelPart when the archive holds no model entry, accumulates vertices and
offset triangles over every mesh element of every part, and fails with
noGeometry when no vertices or no triangles were collected. -/
def load_mesh_3mf (parts : List (List MeshEl)) : Except LoadErr RawMesh :=
  if parts.isEmpty then .error .noModelPart
  else
    let r := accum3mf parts
    if r.1.isEmpty ∨ r.2.1.isEmpty then .error .noGeometry
    else .ok ⟨r.1, r.2.1⟩

/-- Result of the delegated loader (trimesh.load with force equal to mesh,
app.py line 150): a single mesh, a scene whose Trimesh geometries are
listed, or an unrecognized object. -/
inductive LoadedResult where
  | mesh (m : RawMesh)
  | scene (geoms : List RawMesh)
  | unknown
deriving DecidableEq, Repr

/-- Modelled from the spec: trimesh.util.concatenate (app.py line 157),
absent from src, described in section 4.2 as concatenating vertex and face
lists across fragments with the same index-offset rule as the 3MF parser. -/
def concatMeshes (ms : List RawMesh) : RawMesh :=
  ms.foldl (fun acc m =>
    ⟨acc.vertices ++ m.vertices, acc.faces ++ m.faces.map (offTri acc.vertices.length)⟩)
    ⟨[], []⟩

/-- Uploaded file as the loading stage sees it: the lowercased filename
extension, the parsed model parts when the bytes form a valid ZIP archive
(none otherwise), and the result the delegated loader yields on the same
bytes. -/
structure UploadFile where
  suffix : String
  parts : Option (List (List MeshEl))
  loaded : LoadedResult

/-- Mesh library collaborator: the attribute computation and the repair and
watertightness entry points of trimesh that src calls (app.py lines 161-163
and 175-185). -/
structure MeshLib where
  attrs : RawMesh → TriMesh
  watertightB : RawMesh → Bool
  fix_normals : RawMesh → RawMesh
  fill_holes : RawMesh → RawMesh

/-- Loader dispatch, app.py lines 141-165: the 3MF suffix goes to the manual
parser, anything else to the delegated loader (single mesh kept; a scene is
concatenated after filtering, failing with noGeometry when it holds no mesh
geometry; an unrecognized object fails); a mesh that is not watertight is
repaired best-effort with fix_normals then fill_holes. -/
def load_mesh (lib : MeshLib) (file : UploadFile) (suffix : String) : Except LoadErr RawMesh := do
  let mesh ←
    if suffix = ".3mf" then
      match file.parts with
      | none => Except.error LoadErr.invalidArchive
      | some ps => load_mesh_3mf ps
    else
      match file.loaded with
      | .mesh m => Except.ok m
      | .scene geoms =>
          if geoms.isEmpty then Except.error LoadErr.noGeometry
          else Except.ok (concatMeshes geoms)
      | .unknown => Except.error LoadErr.unrecognized
  if lib.watertightB mesh then pure mesh
  else pure (lib.fill_holes (lib.fix_normals mesh))

/-- Python str.upper as used at app.py line 245, written over the character
data so that concrete instances reduce. -/
def strUpper (s : String) : String := ⟨s.data.map Char.toUpper⟩

/-- Errors of the analyze endpoint that concern the engine, app.py
lines 248-272. -/
inductive AnalyzeErr where
  | unknownMaterial (materiau : String)
  | unsupportedFormat
  | load (e : LoadErr)
deriving DecidableEq, Repr

/-- Output of the analyze endpoint: the cost breakdown plus the watertight
flag and the format tag added at app.py lines 265-267 (the storage key of
the glue layer is out of scope). -/
structure AnalyzeOut where
  result : Breakdown
  watertight : Bool
  format : String

/-- Engine part of the analyze endpoint, app.py lines 244-269: the material
form field defaults to PLA and is uppercased, the scale field defaults
to 1.0, an unknown material is rejected first, then an unsupported
extension, then the file is loaded and priced.  Form extraction and number
parsing belong to the HTTP glue; the engine receives the typed optional
fields. -/
def analyze (lib : MeshLib) (file : UploadFile) (materiauForm : Option String)
    (echelleForm : Option ℚ) : Except AnalyzeErr AnalyzeOut :=
  let materiau := strUpper (materiauForm.getD "PLA")
  let echelle := echelleForm.getD 1
  if (DENSITE.lookup materiau).isNone then
    .error (.unknownMaterial materiau)
  else if ¬ (file.suffix = ".stl" ∨ file.suffix = ".3mf" ∨ file.suffix = ".obj") then
    .error .unsupportedFormat
  else
    match load_mesh lib file file.suffix with
    | .error e => .error (.load e)
    | .ok mesh =>
        .ok ⟨calculer_prix (lib.attrs mesh) materiau echelle,
             lib.watertightB mesh,
             file.suffix.dropWhile (fun c => c = Char.ofNat 46)⟩


/-- True exactly on a successful result. -/
def okB {e a : Type} : Except e a → Bool
  | .ok _ => true
  | .error _ => false

/-- Reference form of the 3MF accumulation following the spec wording: the
vertices of the elements in order, and the triangles of each element with
indices shifted by the running count of the vertices of all previous
elements, starting from a given offset. -/
def accumRef : List MeshEl → ℕ → List Vec3 × List Tri3
  | [], _ => ([], [])
  | none :: els, n => accumRef els n
  | some (verts, tris) :: els, n =>
      (verts ++ (accumRef els (n + verts.length)).1,
       tris.map (offTri n) ++ (accumRef els (n + verts.length)).2)

/-- Total vertex count contributed by a list of mesh elements. -/
def countVerts : List MeshEl → ℕ
  | [] => 0
  | none :: els => countVerts els
  | some (verts, _) :: els => verts.length + countVerts els

/-- Mesh with the attribute values of a 20 mm cube, used as the concrete
instantiation point of the hypothesis-bearing theorems. -/
def sampleMesh : TriMesh :=
  { volume := 8000
    area := 2400
    boundsLo := (0, 0, 0)
    boundsHi := (20, 20, 20)
    watertight := true }

/-- Vertices of a unit tetrahedron. -/
def tetraVerts : List Vec3 := [(0, 0, 0), (1, 0, 0), (0, 1, 0), (0, 0, 1)]

/-- Faces of the unit tetrahedron. -/
def tetraFaces : List Tri3 := [(0, 2, 1), (0, 1, 3), (0, 3, 2), (1, 2, 3)]

/-- Raw unit tetrahedron mesh. -/
def tetraRaw : RawMesh := { vertices := tetraVerts, faces := tetraFaces }

/-- Mesh attributes carrying the exact signed volume of the tetrahedron. -/
def tetraMesh : TriMesh :=
  { volume := signedVolume tetraVerts tetraFaces
    area := 2
    boundsLo := (0, 0, 0)
    boundsHi := (1, 1, 1)
    watertight := true }

/-- Concrete mesh library instantiation for the closed theorems: attributes
take the divergence-theorem signed volume, the repair entry points change
nothing and every mesh reports watertight.  The rejection behaviour probed
by those theorems never consults these functions. -/
def sampleLib : MeshLib :=
  { attrs := fun r =>
      { volume := signedVolume r.vertices r.faces
        area := 0
        boundsLo := (0, 0, 0)
        boundsHi := (0, 0, 0)
        watertight := true }
    watertightB := fun _ => true
    fix_normals := id
    fill_holes := id }

/-- Upload carrying the unit tetrahedron through the delegated path. -/
def sampleFile : UploadFile :=
  { suffix := ".stl", parts := none, loaded := .mesh tetraRaw }

/-- Upload whose delegated loader yields one vertex and zero triangles. -/
def facelessFile : UploadFile :=
  { suffix := ".stl", parts := none, loaded := .mesh ⟨[(0, 0, 0)], []⟩ }

/-! Helper lemmas on rounding, shared across claims. -/

/-- Rounding on the rationals is monotone. -/
theorem round_mono_q {x y : ℚ} (h : x ≤ y) : round x ≤ round y := by
  rw [round_eq, round_eq]
  exact Int.floor_le_floor (by linarith)

/-- Rounding to n decimals is monotone. -/
theorem roundTo_mono (n : ℕ) {x y : ℚ} (h : x ≤ y) : roundTo n x ≤ roundTo n y := by
  unfold roundTo
  have hp : (0 : ℚ) < 10 ^ n := by positivity
  have hr : round (x * 10 ^ n) ≤ round (y * 10 ^ n) :=
    round_mono_q (by nlinarith)
  exact (div_le_div_iff_of_pos_right hp).mpr (by exact_mod_cast hr)

/-- Rounding to n decimals fixes every integer. -/
theorem roundTo_intCast (n : ℕ) (z : ℤ) : roundTo n ((z : ℚ)) = z := by
  unfold roundTo
  have hp : (0 : ℚ) < 10 ^ n := by positivity
  have : ((z : ℚ)) * 10 ^ n = ((z * 10 ^ n : ℤ) : ℚ) := by push_cast; ring
  rw [this, round_intCast]
  field_simp

/-- Rounding to n decimals preserves nonnegativity. -/
theorem roundTo_nonneg (n : ℕ) {x : ℚ} (h : 0 ≤ x) : 0 ≤ roundTo n x := by
  have h0 : roundTo n (((0 : ℤ) : ℚ)) = ((0 : ℤ) : ℚ) := roundTo_intCast n 0
  have := roundTo_mono n (x := ((0 : ℤ) : ℚ)) (y := x) (by exact_mod_cast h)
  rw [h0] at this
  exact_mod_cast this

/-- Taking the maximum with an integer floor commutes with rounding. -/
theorem max_roundTo_intCast (n : ℕ) (x : ℚ) (z : ℤ) :
    max (roundTo n x) ((z : ℚ)) = roundTo n (max x ((z : ℚ))) := by
  rcases le_total x ((z : ℚ)) with h | h
  · have hx : roundTo n x ≤ ((z : ℚ)) := by
      have := roundTo_mono n h
      rwa [roundTo_intCast n z] at this
    rw [max_eq_right hx, max_eq_right h, roundTo_intCast n z]
  · have hx : ((z : ℚ)) ≤ roundTo n x := by
      have := roundTo_mono n h
      rwa [roundTo_intCast n z] at this
    rw [max_eq_left hx, max_eq_left h]

/-- C1: for every mesh, material and scale, the final price equals the raw
price (material cost plus machine cost plus surcharge, times the margin
multiplier) floored at PRIX_MIN, with rounding to two decimals applied only
at this final step, so the final price is always at least the floor. -/
theorem c1_prix_final_floor (m : TriMesh) (materiau : String) (echelle : ℚ) :
    (calculer_prix m materiau echelle).prix_final_eur
        = roundTo 2 (max (prix_brut m materiau echelle) PRIX_MIN)
      ∧ prix_brut m materiau echelle
          = (cout_matiere m materiau echelle + cout_machine m materiau echelle
              + suppl_plateau m echelle) * COEFFICIENT_MARGE
      ∧ PRIX_MIN ≤ (calculer_prix m materiau echelle).prix_final_eur := by
  refine ⟨?_, rfl, ?_⟩
  · show prix_final m materiau echelle = _
    unfold prix_final PRIX_MIN
    have h3 : ((3 : ℤ) : ℚ) = (3 : ℚ) := by norm_num
    rw [← h3, max_roundTo_intCast]
  · exact le_max_right _ _

/-- C2: for any mesh and any scale factor k greater than zero, the scaled
bounding-box extents are the unscaled extents times k, the scaled volume is
the unscaled volume times k cubed, and the scaled area is the unscaled area
times k squared. -/
theorem c2_scale_covariance (m : TriMesh) (k : ℚ) (_hk : 0 < k) :
    dims_mm m k
        = (k * (dims_mm m 1).1, k * (dims_mm m 1).2.1, k * (dims_mm m 1).2.2)
      ∧ volume_mm3 m k = k ^ 3 * volume_mm3 m 1
      ∧ surface_cm2 m k = k ^ 2 * surface_cm2 m 1 := by
  refine ⟨?_, ?_, ?_⟩
  · unfold dims_mm
    refine Prod.ext ?_ (Prod.ext ?_ ?_) <;> simp <;> ring
  · unfold volume_mm3; ring
  · unfold surface_cm2; ring

/-- Witness for C2 at the sample cube mesh and scale two. -/
theorem c2_scale_covariance_witness :
    (0 : ℚ) < 2
      ∧ (dims_mm sampleMesh 2
            = (2 * (dims_mm sampleMesh 1).1, 2 * (dims_mm sampleMesh 1).2.1,
               2 * (dims_mm sampleMesh 1).2.2)
          ∧ volume_mm3 sampleMesh 2 = 2 ^ 3 * volume_mm3 sampleMesh 1
          ∧ surface_cm2 sampleMesh 2 = 2 ^ 2 * surface_cm2 sampleMesh 1) :=
  ⟨by norm_num, c2_scale_covariance sampleMesh 2 (by norm_num)⟩

/-- C4: the flat bed surcharge is half a euro exactly when the bed-occupancy
ratio strictly exceeds the threshold of sixty percent, is zero otherwise (in
particular at a ratio exactly equal to the threshold), and enters the raw
price of the breakdown additively before the margin multiplier. -/
theorem c4_surcharge_iff (m : TriMesh) (materiau : String) (echelle : ℚ) :
    (suppl_plateau m echelle = 50/100 ↔ 60/100 < ratio_plateau m echelle)
      ∧ (suppl_plateau m echelle = 0 ↔ ¬ 60/100 < ratio_plateau m echelle)
      ∧ (ratio_plateau m echelle = 60/100 → suppl_plateau m echelle = 0)
      ∧ prix_brut m materiau echelle
          = (cout_matiere m materiau echelle + cout_machine m materiau echelle
              + suppl_plateau m echelle) * COEFFICIENT_MARGE := by
  unfold suppl_plateau
  refine ⟨?_, ?_, ?_, rfl⟩
  · split_ifs with h
    · simpa using h
    · simp only [gt_iff_lt] at h
      constructor
      · intro hz; norm_num at hz
      · intro hlt; exact absurd hlt h
  · split_ifs with h
    · simp only [gt_iff_lt] at h
      constructor
      · intro hz; norm_num at hz
      · intro hn; exact absurd h hn
    · simp only [gt_iff_lt] at h
      exact ⟨fun _ => h, fun _ => rfl⟩
  · intro he
    split_ifs with h
    · rw [he] at h; exact absurd h (lt_irrefl _)
    · rfl

/-- C5: the warnings list of the breakdown contains an entry naming an axis
exactly when the scaled extent of that axis strictly exceeds the
corresponding bed limit, and the breakdown is produced with that list in
every case, so an exceeded limit never blocks pricing. -/
theorem c5_warnings_iff (m : TriMesh) (materiau : String) (echelle : ℚ) :
    ((∃ v l, ("X", v, l) ∈ warnings m echelle) ↔ PLATEAU_X < (dims_mm m echelle).1)
      ∧ ((∃ v l, ("Y", v, l) ∈ warnings m echelle) ↔ PLATEAU_Y < (dims_mm m echelle).2.1)
      ∧ ((∃ v l, ("Z", v, l) ∈ warnings m echelle) ↔ PLATEAU_Z < (dims_mm m echelle).2.2)
      ∧ (calculer_prix m materiau echelle).warnings = warnings m echelle := by
  unfold warnings axesData
  refine ⟨?_, ?_, ?_, rfl⟩ <;>
    simp only [List.filterMap_cons, List.filterMap_nil, gt_iff_lt] <;>
    split_ifs <;>
    simp_all [List.mem_cons, Prod.ext_iff]

/-- Pricing depends on the material key only through the three table
lookups, apart from the echoed materiau field. -/
theorem calculer_prix_congr (m : TriMesh) (mat mat2 : String) (echelle : ℚ)
    (hd : densiteOf mat = densiteOf mat2) (hv : vitesseOf mat = vitesseOf mat2)
    (hp : prixKgOf mat = prixKgOf mat2) :
    calculer_prix m mat echelle
      = { calculer_prix m mat2 echelle with materiau := mat } := by
  simp only [calculer_prix, prix_final, prix_brut, cout_matiere, cout_machine,
    poids_g, temps_heures, temps_secondes, volume_mat_mm3, temps_label, hd, hv, hp]

/-- C10: called directly with a material key absent from the three material
tables, calculer_prix does not fail: the lookups fall back to the PLA
defaults (density 1.24, rate 8.0, price 25.0 per kg) and the breakdown is
the one computed for PLA, apart from the echoed material key. -/
theorem c10_unknown_material_defaults (m : TriMesh) (materiau : String) (echelle : ℚ)
    (h1 : DENSITE.lookup materiau = none) (h2 : VITESSE_MM3_S.lookup materiau = none)
    (h3 : PRIX_KG.lookup materiau = none) :
    densiteOf materiau = 124/100 ∧ vitesseOf materiau = 8 ∧ prixKgOf materiau = 25
      ∧ calculer_prix m materiau echelle
          = { calculer_prix m "PLA" echelle with materiau := materiau } := by
  have hd : densiteOf materiau = 124/100 := by simp [densiteOf, h1]
  have hv : vitesseOf materiau = 8 := by simp [vitesseOf, h2]
  have hp : prixKgOf materiau = 25 := by simp [prixKgOf, h3]
  refine ⟨hd, hv, hp, calculer_prix_congr m materiau "PLA" echelle ?_ ?_ ?_⟩
  · rw [hd]; rfl
  · rw [hv]; rfl
  · rw [hp]; rfl

/-- Witness for C10 at the unknown key WOOD, the sample mesh and scale one. -/
theorem c10_unknown_material_defaults_witness :
    (DENSITE.lookup "WOOD" = none ∧ VITESSE_MM3_S.lookup "WOOD" = none
        ∧ PRIX_KG.lookup "WOOD" = none)
      ∧ (densiteOf "WOOD" = 124/100 ∧ vitesseOf "WOOD" = 8 ∧ prixKgOf "WOOD" = 25
          ∧ calculer_prix sampleMesh "WOOD" 1
              = { calculer_prix sampleMesh "PLA" 1 with materiau := "WOOD" }) :=
  ⟨⟨by decide, by decide, by decide⟩,
   c10_unknown_material_defaults sampleMesh "WOOD" 1 (by decide) (by decide) (by decide)⟩

/-- C6: whatever the face winding, a mesh whose volume attribute is the
divergence-theorem signed volume of its vertex and face lists is priced with
a nonnegative reported volume, the internal volume in cubic millimeters
being the absolute value of that signed volume times the cube of the scale,
and both the internal surface in square centimeters and the spec-modelled
surface area are nonnegative. -/
theorem c6_volume_area_nonneg (vs : List Vec3) (fs : List Tri3) (m : TriMesh)
    (materiau : String) (echelle : ℚ) (h1 : m.volume = signedVolume vs fs)
    (h2 : 0 ≤ m.area) (h3 : 0 ≤ echelle) :
    0 ≤ (calculer_prix m materiau echelle).volume_cm3
      ∧ volume_mm3 m echelle = |signedVolume vs fs| * echelle ^ 3
      ∧ 0 ≤ surface_cm2 m echelle
      ∧ 0 ≤ meshArea vs fs := by
  refine ⟨?_, ?_, ?_, ?_⟩
  · show 0 ≤ roundTo 2 (volume_cm3 m echelle)
    apply roundTo_nonneg
    unfold volume_cm3 volume_mm3
    have := abs_nonneg m.volume
    positivity
  · unfold volume_mm3
    rw [h1]
  · unfold surface_cm2
    have he : (0 : ℚ) ≤ echelle ^ 2 := sq_nonneg echelle
    have := mul_nonneg h2 he
    linarith
  · unfold meshArea
    apply List.sum_nonneg
    intro x hx
    obtain ⟨t, _, rfl⟩ := List.mem_map.mp hx
    positivity

/-- Witness for C6 at the unit tetrahedron with scale one. -/
theorem c6_volume_area_nonneg_witness :
    (tetraMesh.volume = signedVolume tetraVerts tetraFaces ∧ (0 : ℚ) ≤ tetraMesh.area
        ∧ (0 : ℚ) ≤ 1)
      ∧ (0 ≤ (calculer_prix tetraMesh "PLA" 1).volume_cm3
          ∧ volume_mm3 tetraMesh 1 = |signedVolume tetraVerts tetraFaces| * 1 ^ 3
          ∧ 0 ≤ surface_cm2 tetraMesh 1
          ∧ 0 ≤ meshArea tetraVerts tetraFaces) :=
  ⟨⟨rfl, by norm_num [tetraMesh], by norm_num⟩,
   c6_volume_area_nonneg tetraVerts tetraFaces tetraMesh "PLA" 1 rfl
     (by norm_num [tetraMesh]) (by norm_num)⟩

/-- C7: a request whose material key, after defaulting and uppercasing, is
not in the material table fails with unknownMaterial, for every mesh
library, file and scale alike: the failure precedes any decoding and the
cost model is never invoked with substituted defaults. -/
theorem c7_unknown_material_rejected (lib : MeshLib) (file : UploadFile)
    (materiauForm : Option String) (echelleForm : Option ℚ)
    (h : DENSITE.lookup (strUpper (materiauForm.getD "PLA")) = none) :
    analyze lib file materiauForm echelleForm
      = .error (.unknownMaterial (strUpper (materiauForm.getD "PLA"))) := by
  unfold analyze
  simp [h]

/-- Witness for C7 at the unknown key WOOD. -/
theorem c7_unknown_material_rejected_witness :
    DENSITE.lookup (strUpper ((some "WOOD").getD "PLA")) = none
      ∧ analyze sampleLib sampleFile (some "WOOD") none
          = .error (.unknownMaterial (strUpper ((some "WOOD").getD "PLA"))) :=
  ⟨by decide, c7_unknown_material_rejected sampleLib sampleFile (some "WOOD") none (by decide)⟩


/-- The 3MF parser fails with noGeometry whenever the accumulation over a
nonempty list of model parts collects no vertices or no triangles. -/
theorem load_mesh_3mf_noGeometry (parts : List (List MeshEl)) (hne : parts ≠ [])
    (hg : (accum3mf parts).1 = [] ∨ (accum3mf parts).2.1 = []) :
    load_mesh_3mf parts = .error .noGeometry := by
  unfold load_mesh_3mf
  rw [if_neg (by simpa [List.isEmpty_iff] using hne), if_pos]
  rcases hg with hg | hg
  · exact Or.inl (by simpa [List.isEmpty_iff] using hg)
  · exact Or.inr (by simpa [List.isEmpty_iff] using hg)

/-- Whether analyze succeeds is untouched by the payload placed in the ok
branch of the final load dispatch. -/
theorem okB_match_indep (x : Except LoadErr RawMesh) (f g : RawMesh → AnalyzeOut) :
    okB (match x with
         | .error e => (.error (.load e) : Except AnalyzeErr AnalyzeOut)
         | .ok m => .ok (f m))
      = okB (match x with
             | .error e => (.error (.load e) : Except AnalyzeErr AnalyzeOut)
             | .ok m => .ok (g m)) := by
  cases x <;> rfl

/-- C8 counterexample: the engine accepts a scale factor of zero.  With the
tetrahedron upload and material PLA, analyze at scale zero still returns a
cost breakdown, so a non-positive scale is not a rejected input. -/
theorem c8_counterexample_scale_zero :
    okB (analyze sampleLib sampleFile (some "PLA") (some 0)) = true := rfl

/-- C8 amended: the scale factor defaults to 1.0 when the form field is
absent, but no positivity check exists: whether analyze succeeds is
independent of the supplied scale value, so non-positive scales are accepted
and priced like any other. -/
theorem c8_default_no_positivity_check (lib : MeshLib) (file : UploadFile)
    (materiauForm : Option String) :
    analyze lib file materiauForm none = analyze lib file materiauForm (some 1)
      ∧ ∀ (k j : ℚ),
          okB (analyze lib file materiauForm (some k))
            = okB (analyze lib file materiauForm (some j)) := by
  constructor
  · rfl
  · intro k j
    unfold analyze
    by_cases h1 : (DENSITE.lookup (strUpper (materiauForm.getD "PLA"))).isNone = true
    · rw [if_pos h1, if_pos h1]
    · rw [if_neg h1, if_neg h1]
      by_cases h2 : ¬(file.suffix = ".stl" ∨ file.suffix = ".3mf" ∨ file.suffix = ".obj")
      · rw [if_pos h2, if_pos h2]
      · rw [if_neg h2, if_neg h2]
        exact okB_match_indep (load_mesh lib file file.suffix) _ _

/-- C9 counterexample: a zero-triangle mesh on the delegated path is not
rejected: loading the one-vertex, zero-face upload succeeds and analyze
returns a cost breakdown for it. -/
theorem c9_counterexample_faceless_priced :
    load_mesh sampleLib facelessFile ".stl" = .ok ⟨[(0, 0, 0)], []⟩
      ∧ okB (analyze sampleLib facelessFile (some "PLA") (some 1)) = true :=
  ⟨rfl, rfl⟩

/-- C9 amended: the 3MF path does reject a geometry-free result with
noGeometry, and a delegated-path scene with no mesh geometry is rejected
too, but a zero-triangle mesh returned directly by the delegated loader is
accepted and priced, for every mesh library instantiation. -/
theorem c9_empty_mesh_rejection_gap (parts : List (List MeshEl))
    (lib : MeshLib) (file : UploadFile) (v : Vec3) (hne : parts ≠ [])
    (hg : (accum3mf parts).1 = [] ∨ (accum3mf parts).2.1 = []) :
    load_mesh_3mf parts = .error .noGeometry
      ∧ (file.loaded = .scene [] → file.suffix ≠ ".3mf" →
          load_mesh lib file file.suffix = .error .noGeometry)
      ∧ (file.loaded = .mesh ⟨[v], []⟩ → file.suffix = ".stl" →
          okB (analyze lib file (some "PLA") (some 1)) = true) := by
  refine ⟨load_mesh_3mf_noGeometry parts hne hg, ?_, ?_⟩
  · intro hsc hsuf
    unfold load_mesh
    rw [if_neg hsuf, hsc]
    rfl
  · intro hm hsuf
    unfold analyze
    rw [if_neg (by decide)]
    rw [if_neg (by rw [hsuf]; decide)]
    have hload : load_mesh lib file file.suffix
        = .ok (if lib.watertightB ⟨[v], []⟩ then (⟨[v], []⟩ : RawMesh)
               else lib.fill_holes (lib.fix_normals ⟨[v], []⟩)) := by
      unfold load_mesh
      rw [if_neg (by rw [hsuf]; decide), hm]
      show (if lib.watertightB ⟨[v], []⟩ then (pure (⟨[v], []⟩ : RawMesh) : Except LoadErr RawMesh)
            else pure (lib.fill_holes (lib.fix_normals ⟨[v], []⟩))) = _
      cases lib.watertightB ⟨[v], []⟩ <;> rfl
    rw [hload]
    rfl

/-- Witness for C9 amended at a single empty mesh element, the sample
library and the faceless upload. -/
theorem c9_empty_mesh_rejection_gap_witness :
    (([[some (([] : List Vec3), ([] : List Tri3))]] : List (List MeshEl)) ≠ []
        ∧ ((accum3mf [[some (([] : List Vec3), ([] : List Tri3))]]).1 = []
            ∨ (accum3mf [[some (([] : List Vec3), ([] : List Tri3))]]).2.1 = []))
      ∧ (load_mesh_3mf [[some (([] : List Vec3), ([] : List Tri3))]]
            = .error .noGeometry
          ∧ (facelessFile.loaded = .scene [] → facelessFile.suffix ≠ ".3mf" →
              load_mesh sampleLib facelessFile facelessFile.suffix
                = .error .noGeometry)
          ∧ (facelessFile.loaded = .mesh ⟨[(0, 0, 0)], []⟩ →
              facelessFile.suffix = ".stl" →
              okB (analyze sampleLib facelessFile (some "PLA") (some 1)) = true)) :=
  ⟨⟨List.cons_ne_nil _ _, Or.inl rfl⟩,
   c9_empty_mesh_rejection_gap [[some (([] : List Vec3), ([] : List Tri3))]]
     sampleLib facelessFile (0, 0, 0) (List.cons_ne_nil _ _) (Or.inl rfl)⟩

/-- Vertex counting distributes over appending element lists. -/
theorem countVerts_append (l1 l2 : List MeshEl) :
    countVerts (l1 ++ l2) = countVerts l1 + countVerts l2 := by
  induction l1 with
  | nil => simp [countVerts]
  | cons e l1 ih =>
      cases e with
      | none => simpa [countVerts] using ih
      | some p =>
          obtain ⟨verts, tris⟩ := p
          simp [countVerts, ih, Nat.add_assoc]

/-- The reference accumulation over appended element lists splits into the
two accumulations, the second starting at the shifted offset. -/
theorem accumRef_append (l1 l2 : List MeshEl) :
    ∀ n : ℕ,
      accumRef (l1 ++ l2) n
        = ((accumRef l1 n).1 ++ (accumRef l2 (n + countVerts l1)).1,
           (accumRef l1 n).2 ++ (accumRef l2 (n + countVerts l1)).2) := by
  induction l1 with
  | nil => intro n; simp [accumRef, countVerts]
  | cons e l1 ih =>
      intro n
      cases e with
      | none => simpa [accumRef, countVerts] using ih n
      | some p =>
          obtain ⟨verts, tris⟩ := p
          simp [accumRef, countVerts, ih, List.append_assoc, Nat.add_assoc]

/-- The code loop over one element list computes exactly the reference
accumulation appended to the incoming state, with the offset advanced by the
vertex count. -/
theorem foldl_step3mf_eq (els : List MeshEl) :
    ∀ (vs : List Vec3) (fs : List Tri3) (n : ℕ),
      els.foldl step3mf (vs, fs, n)
        = (vs ++ (accumRef els n).1, fs ++ (accumRef els n).2, n + countVerts els) := by
  induction els with
  | nil => intro vs fs n; simp [accumRef, countVerts]
  | cons e els ih =>
      intro vs fs n
      cases e with
      | none =>
          simpa [List.foldl_cons, step3mf, accumRef, countVerts] using ih vs fs n
      | some p =>
          obtain ⟨verts, tris⟩ := p
          have hstep : step3mf (vs, fs, n) (some (verts, tris))
              = (vs ++ verts, fs ++ tris.map (offTri n), n + verts.length) := rfl
          rw [List.foldl_cons, hstep, ih]
          simp [accumRef, countVerts, List.append_assoc, Nat.add_assoc]

/-- The full nested loop over all model parts equals the reference
accumulation of the flattened element sequence. -/
theorem accum3mf_eq (parts : List (List MeshEl)) :
    accum3mf parts
      = ((accumRef parts.flatten 0).1, (accumRef parts.flatten 0).2,
         countVerts parts.flatten) := by
  suffices h : ∀ (vs : List Vec3) (fs : List Tri3) (n : ℕ),
      parts.foldl (fun acc part => part.foldl step3mf acc) (vs, fs, n)
        = (vs ++ (accumRef parts.flatten n).1, fs ++ (accumRef parts.flatten n).2,
           n + countVerts parts.flatten) by
    simpa [accum3mf] using h [] [] 0
  induction parts with
  | nil => intro vs fs n; simp [accumRef, countVerts]
  | cons p ps ih =>
      intro vs fs n
      rw [List.foldl_cons, foldl_step3mf_eq p vs fs n, ih]
      simp [List.flatten_cons, accumRef_append, countVerts_append,
        List.append_assoc, Nat.add_assoc]

/-- C3: decoding the packaged format offsets the triangle indices of every
mesh element by the running count of previously accumulated vertices (the
nested loop equals the reference accumulation for every part list); a file
holding two valid mesh elements in two model parts yields one mesh whose
first face block only references the first vertex block and whose second,
offset face block only references the second; and a nonempty archive whose
accumulation collects no vertices or no triangles fails with noGeometry. -/
theorem c3_packaged_concatenation (v1 v2 : List Vec3) (t1 t2 : List Tri3)
    (h1 : ∀ t ∈ t1, t.1 < v1.length ∧ t.2.1 < v1.length ∧ t.2.2 < v1.length)
    (h2 : ∀ t ∈ t2, t.1 < v2.length ∧ t.2.1 < v2.length ∧ t.2.2 < v2.length)
    (hv : v1 ≠ []) (ht : t1 ≠ []) :
    (∀ parts : List (List MeshEl),
        accum3mf parts
          = ((accumRef parts.flatten 0).1, (accumRef parts.flatten 0).2,
             countVerts parts.flatten))
      ∧ load_mesh_3mf [[some (v1, t1)], [some (v2, t2)]]
          = .ok ⟨v1 ++ v2, t1.map (offTri 0) ++ t2.map (offTri v1.length)⟩
      ∧ (∀ t ∈ t1.map (offTri 0),
            t.1 < v1.length ∧ t.2.1 < v1.length ∧ t.2.2 < v1.length)
      ∧ (∀ t ∈ t2.map (offTri v1.length),
            (v1.length ≤ t.1 ∧ t.1 < v1.length + v2.length)
              ∧ (v1.length ≤ t.2.1 ∧ t.2.1 < v1.length + v2.length)
              ∧ (v1.length ≤ t.2.2 ∧ t.2.2 < v1.length + v2.length))
      ∧ (∀ parts : List (List MeshEl), parts ≠ [] →
            ((accum3mf parts).1 = [] ∨ (accum3mf parts).2.1 = []) →
            load_mesh_3mf parts = .error .noGeometry) := by
  have hacc : accum3mf [[some (v1, t1)], [some (v2, t2)]]
      = (v1 ++ v2, t1.map (offTri 0) ++ t2.map (offTri v1.length),
         v1.length + v2.length) := by
    simp [accum3mf, step3mf]
  refine ⟨accum3mf_eq, ?_, ?_, ?_, load_mesh_3mf_noGeometry⟩
  · unfold load_mesh_3mf
    rw [if_neg (by simp), hacc, if_neg]
    simp only [List.isEmpty_iff, not_or, List.append_eq_nil]
    refine ⟨fun hc => hv hc.1, fun hc => ht ?_⟩
    have := hc.1
    simpa [List.map_eq_nil_iff] using this
  · intro t htm
    obtain ⟨s, hs, rfl⟩ := List.mem_map.mp htm
    obtain ⟨a, b, c⟩ := h1 s hs
    simp only [offTri]
    omega
  · intro t htm
    obtain ⟨s, hs, rfl⟩ := List.mem_map.mp htm
    obtain ⟨a, b, c⟩ := h2 s hs
    simp only [offTri]
    omega

/-- Witness for C3 at two concrete triangles in two model parts, plus the
noGeometry failure at an archive whose single mesh element is skipped. -/
theorem c3_packaged_concatenation_witness :
    ((∀ t ∈ [((0, 1, 2) : Tri3)],
        t.1 < [((0 : ℚ), (0 : ℚ), (0 : ℚ)), (1, 0, 0), (0, 1, 0)].length
          ∧ t.2.1 < [((0 : ℚ), (0 : ℚ), (0 : ℚ)), (1, 0, 0), (0, 1, 0)].length
          ∧ t.2.2 < [((0 : ℚ), (0 : ℚ), (0 : ℚ)), (1, 0, 0), (0, 1, 0)].length)
      ∧ (∀ t ∈ [((0, 1, 2) : Tri3)],
        t.1 < [((5 : ℚ), (0 : ℚ), (0 : ℚ)), (6, 0, 0), (5, 1, 0)].length
          ∧ t.2.1 < [((5 : ℚ), (0 : ℚ), (0 : ℚ)), (6, 0, 0), (5, 1, 0)].length
          ∧ t.2.2 < [((5 : ℚ), (0 : ℚ), (0 : ℚ)), (6, 0, 0), (5, 1, 0)].length)
      ∧ ([((0 : ℚ), (0 : ℚ), (0 : ℚ)), (1, 0, 0), (0, 1, 0)] : List Vec3) ≠ []
      ∧ ([((0, 1, 2) : Tri3)] : List Tri3) ≠ [])
      ∧ load_mesh_3mf
            [[some ([((0 : ℚ), (0 : ℚ), (0 : ℚ)), (1, 0, 0), (0, 1, 0)], [((0, 1, 2) : Tri3)])],
             [some ([((5 : ℚ), (0 : ℚ), (0 : ℚ)), (6, 0, 0), (5, 1, 0)], [((0, 1, 2) : Tri3)])]]
          = .ok ⟨[((0 : ℚ), (0 : ℚ), (0 : ℚ)), (1, 0, 0), (0, 1, 0)]
                    ++ [((5 : ℚ), (0 : ℚ), (0 : ℚ)), (6, 0, 0), (5, 1, 0)],
                 [((0, 1, 2) : Tri3)].map (offTri 0)
                    ++ [((0, 1, 2) : Tri3)].map
                        (offTri [((0 : ℚ), (0 : ℚ), (0 : ℚ)), (1, 0, 0), (0, 1, 0)].length)⟩
      ∧ load_mesh_3mf [[(none : MeshEl)]] = .error .noGeometry :=
  ⟨⟨by decide, by decide, List.cons_ne_nil _ _, List.cons_ne_nil _ _⟩,
   (c3_packaged_concatenation
      [((0 : ℚ), (0 : ℚ), (0 : ℚ)), (1, 0, 0), (0, 1, 0)]
      [((5 : ℚ), (0 : ℚ), (0 : ℚ)), (6, 0, 0), (5, 1, 0)]
      [((0, 1, 2) : Tri3)] [((0, 1, 2) : Tri3)]
      (by decide) (by decide) (List.cons_ne_nil _ _) (List.cons_ne_nil _ _)).2.1,
   (c3_packaged_concatenation
      [((0 : ℚ), (0 : ℚ), (0 : ℚ)), (1, 0, 0), (0, 1, 0)]
      [((5 : ℚ), (0 : ℚ), (0 : ℚ)), (6, 0, 0), (5, 1, 0)]
      [((0, 1, 2) : Tri3)] [((0, 1, 2) : Tri3)]
      (by decide) (by decide) (List.cons_ne_nil _ _)
      (List.cons_ne_nil _ _)).2.2.2.2 [[(none : MeshEl)]]
     (List.cons_ne_nil _ _) (Or.inl rfl)⟩
